import Mathlib

/-!
A shallow embedding of the presentation-orchestration core of the
`art-kiosk` Flask server (`src/app.py`), together with proofs that settle
the specification's claims about it.

Conventions of the embedding:

* A Python `settings` dict loaded from `settings.json` is modelled by the
  `Settings` structure.  Every field is an `Option`: `none` models a key
  that is absent from the dict, `some v` a present key.  Keys whose value
  can itself be JSON `null` (`active_theme`, `active_atmosphere`) are
  `Option (Option String)`.  Python's `d.get(k)` is `(·.getD none)` after a
  join, `d.get(k, dflt)` is `(·.getD dflt)`.
* Python dicts with string keys are association lists `List (String × α)`;
  `d[k]` / `k in d` are `List.lookup`.  Insertion of a new key appends,
  assignment to an existing key rewrites it in place, `del` filters it out.
* Wall-clock readings (`time.time()`, `datetime.now().hour`) are explicit
  parameters, as is the sorted directory listing of the upload folder and
  every draw of `random.random()` (an entropy parameter).
* Timestamps for the command mailbox are integers (seconds); only the
  comparison `now - issuedAt < 5` matters to the claims.
* The interesting state of Python's global `random` generator is modelled
  by `RngState` below; the Mersenne Twister itself is external library
  code, replaced by a deterministic stand-in (see `lcgNext`), which is all
  the claims depend on.
-/

/-- Value of a `themes` / `atmospheres` dict entry.  The source stores
`{'name': ..., 'created': time.time(), 'interval': n}` and reads only
`.get('interval', 3600)`; the wall-clock `created` field is never read by
any claimed behaviour and is not modelled. -/
structure IntervalInfo where
  interval : Option Nat
deriving DecidableEq, Repr

/-- One entry of the `video_urls` list: `{'id': ..., 'url': ..., 'created': ...}`
(`created` is never read and is not modelled). -/
structure VideoEntry where
  id : String
  url : String
deriving DecidableEq, Repr

/-- One value of the `day_times` dict: `{'start_hour': h, 'atmospheres': [...]}`.
`atmospheres` is an `Option` because the source reads it with
`.get('atmospheres', [])`. -/
structure DaySlot where
  start_hour : Nat
  atmospheres : Option (List String)
deriving DecidableEq, Repr

/-- Crop data stored per image in `image_crops`; its contents are never read
by the claimed behaviours, only the presence of the key matters. -/
structure CropRect where
  x : Nat
  y : Nat
  width : Nat
  height : Nat
deriving DecidableEq, Repr

/-- The settings document (the dict persisted in `settings.json`).  `none`
in a field means the key is absent from the dict. -/
structure Settings where
  interval : Option Nat := none
  check_interval : Option Nat := none
  enabled_images : Option (List (String × Bool)) := none
  dissolve_enabled : Option Bool := none
  themes : Option (List (String × IntervalInfo)) := none
  image_themes : Option (List (String × List String)) := none
  active_theme : Option (Option String) := none
  atmospheres : Option (List (String × IntervalInfo)) := none
  atmosphere_themes : Option (List (String × List String)) := none
  active_atmosphere : Option (Option String) := none
  day_scheduling_enabled : Option Bool := none
  day_times : Option (List (String × DaySlot)) := none
  shuffle_id : Option Nat := none
  image_crops : Option (List (String × CropRect)) := none
  video_urls : Option (List VideoEntry) := none
  video_themes : Option (List (String × List String)) := none
  enabled_videos : Option (List (String × Bool)) := none
deriving DecidableEq, Repr

/-- Python truthiness of an optional string (`if s:`): `None` and `''` are
falsy, every other string is truthy. -/
def truthyStr (o : Option String) : Option String :=
  match o with
  | none => none
  | some s => if s = "" then none else some s

/-- `settings.get('active_atmosphere')`: absent key and stored `null` both
read as `None`. -/
def Settings.activeAtmosphere (s : Settings) : Option String :=
  s.active_atmosphere.getD none

/-- `settings.get('active_theme')`: absent key and stored `null` both read
as `None`. -/
def Settings.activeTheme (s : Settings) : Option String :=
  s.active_theme.getD none

/-! ## Command channel (src/app.py: `send_command`, `poll_command`)

The pull mailbox is the pair of module globals `current_command` /
`command_timestamp`.  `current_command` is either `None`, a plain command
string, or the dict `{'command': 'jump', 'image_name': n}`. -/

/-- A value held in the `current_command` global. -/
inductive PyCmd where
  | simple (s : String)
  | jump (image_name : String)
deriving DecidableEq, Repr

/-- The mailbox globals `current_command` and `command_timestamp`. -/
structure Mailbox where
  current_command : Option PyCmd
  command_timestamp : Int
deriving DecidableEq, Repr

/-- The JSON body of `POST /api/control/send`:
`{'command': ..., 'image_name': ...}` with either key possibly absent. -/
structure SendData where
  command : Option String
  image_name : Option String
deriving DecidableEq, Repr

/-- The response of `send_command`, reduced to what the claims observe:
the HTTP status and the echoed command / image name on success. -/
structure SendResponse where
  status : Nat
  command : Option String
  image_name : Option String
deriving DecidableEq, Repr

/-- `send_command` (src/app.py lines 659-682): `jump` requires
`image_name` and stores a dict; `next/prev/pause/play/reload` store the
bare string; anything else is rejected with 400 and leaves the mailbox
untouched. -/
def sendCommand (data : SendData) (mb : Mailbox) (now : Int) :
    Mailbox × SendResponse :=
  match data.command with
  | none => (mb, ⟨400, none, none⟩)
  | some c =>
    if c = "jump" then
      match truthyStr data.image_name with
      | none => (mb, ⟨400, none, none⟩)
      | some n =>
        (⟨some (.jump n), now⟩, ⟨200, some "jump", some n⟩)
    else if c = "next" ∨ c = "prev" ∨ c = "pause" ∨ c = "play" ∨ c = "reload" then
      (⟨some (.simple c), now⟩, ⟨200, some c, none⟩)
    else
      (mb, ⟨400, none, none⟩)

/-- `poll_command` (src/app.py lines 685-696): deliver the pending command
only when it exists and is less than 5 seconds old, clearing the slot; in
every other case answer `{'command': None}`.  Note the expired branch does
not write the globals. -/
def pollCommand (mb : Mailbox) (now : Int) : Mailbox × Option PyCmd :=
  match mb.current_command with
  | some c =>
    if now - mb.command_timestamp < 5 then
      (⟨none, mb.command_timestamp⟩, some c)
    else
      (mb, none)
  | none => (mb, none)

/-! ## Shuffle engine (src/app.py: the tail of `list_images`, `reshuffle_images`)

The display order is produced by `random.seed(shuffle_id)`,
`random.shuffle(items)`, `random.seed()`.  Python's global Mersenne
Twister is standard-library code, not part of this repository; it is
modelled by a deterministic stand-in generator with the same interface
contract (seeding fixes the whole stream; `random.seed()` re-seeds from
operating-system entropy, here an explicit parameter).  `random.shuffle`
is the Fisher-Yates walk of CPython, driven by that stream. -/

/-- State of the global pseudo-random generator. -/
abbrev RngState : Type := Nat

/-- `random.seed(v)`: the global state becomes a function of `v` alone. -/
def seedRng (v : Nat) : RngState := v

/-- One draw from the generator: a deterministic stand-in (a linear
congruential step) for the Mersenne Twister of the Python standard
library. -/
def lcgNext (g : RngState) : Nat × RngState :=
  let g2 := (1103515245 * g + 12345) % 2 ^ 31
  (g2, g2)

/-- A draw reduced below `n` (the `j = randbelow(i+1)` of `random.shuffle`). -/
def randBelow (g : RngState) (n : Nat) : Nat × RngState :=
  let (v, g2) := lcgNext g
  (v % n, g2)

/-- Swap two positions of a list (out-of-range indices leave it unchanged). -/
def swapAt (l : List α) (i j : Nat) : List α :=
  match l.get? i, l.get? j with
  | some a, some b => (l.set i b).set j a
  | _, _ => l

/-- The Fisher-Yates walk of `random.shuffle`: for `i` from `len-1` down to
`1`, draw `j ≤ i` and swap positions `i` and `j`. -/
def fisherYates (l : List α) (g : RngState) : Nat → List α × RngState
  | 0 => (l, g)
  | i + 1 =>
    let (j, g2) := randBelow g (i + 2)
    fisherYates (swapAt l (i + 1) j) g2 i

/-- `random.shuffle(items)` on a generator in state `g`. -/
def shuffleWithState (l : List α) (g : RngState) : List α × RngState :=
  match l with
  | [] => ([], g)
  | _ => fisherYates l g (l.length - 1)

/-- The pure order function: `random.seed(v); random.shuffle(items)`.
This is the `order(eligibleIds, seed)` of the specification. -/
def pyShuffle (v : Nat) (l : List α) : List α :=
  (shuffleWithState l (seedRng v)).1

/-- The shuffle step at the end of `list_images` (src/app.py lines
475-481), with the global generator state threaded explicitly: seed with
`shuffle_id`, shuffle, then `random.seed()` re-seeds the global generator
from fresh entropy.  Returns the ordered items and the final global
generator state. -/
def listShuffleRun (items : List α) (shuffle_id : Nat) (_g : RngState)
    (entropy : RngState) : List α × RngState :=
  let g1 := seedRng shuffle_id
  let (shuffled, _) := shuffleWithState items g1
  (shuffled, entropy)

/-! ## Avoid-repeat reshuffle (src/app.py: `reshuffle_images`, lines 719-808) -/

/-- Observable outcome of `reshuffle_images`: HTTP success, the installed
`shuffle_id`, and whether the soft `warning` field was present in the
response. -/
structure ReshuffleResult where
  success : Bool
  shuffle_id : Nat
  warning : Bool
deriving DecidableEq, Repr

/-- The retry loop of `reshuffle_images`: on attempt `i` draw
`seeds i`, test the shuffle it induces, accept it if the first item
differs from `avoid`; after the fuel (100 attempts) is spent, install the
last drawn seed with a warning.  `images` is the list of eligible image
names in directory order. -/
def reshuffleGo (images : List String) (avoid : String) (seeds : Nat → Nat) :
    Nat → Nat → ReshuffleResult
  | 0, i => ⟨true, seeds (i - 1), true⟩
  | fuel + 1, i =>
    let sid := seeds i
    if (pyShuffle sid images).head? ≠ some avoid then
      ⟨true, sid, false⟩
    else
      reshuffleGo images avoid seeds fuel (i + 1)

/-- `reshuffle_images` after the eligible image list has been computed:
with no (truthy) `avoid_first`, or at most one image, install one fresh
draw unconditionally; otherwise run the bounded avoid-repeat search. -/
def reshuffleAvoid (images : List String) (avoid_first : Option String)
    (seeds : Nat → Nat) : ReshuffleResult :=
  match truthyStr avoid_first with
  | none => ⟨true, seeds 0, false⟩
  | some a =>
    if images.length ≤ 1 then ⟨true, seeds 0, false⟩
    else reshuffleGo images a seeds 100 0

/-! ## Day scheduler (src/app.py: `get_current_time_period`,
`get_active_atmospheres_for_time`) -/

/-- `get_current_time_period` (src/app.py lines 251-288): map the hour of
day to one of the twelve 2-hour periods.  The hour (from the real clock or
the test-mode mock) is an explicit parameter. -/
def getCurrentTimePeriod (hour : Nat) : String :=
  if 6 ≤ hour ∧ hour < 8 then "1"
  else if 8 ≤ hour ∧ hour < 10 then "2"
  else if 10 ≤ hour ∧ hour < 12 then "3"
  else if 12 ≤ hour ∧ hour < 14 then "4"
  else if 14 ≤ hour ∧ hour < 16 then "5"
  else if 16 ≤ hour ∧ hour < 18 then "6"
  else if 18 ≤ hour ∧ hour < 20 then "7"
  else if 20 ≤ hour ∧ hour < 22 then "8"
  else if 22 ≤ hour ∧ hour < 24 then "9"
  else if hour < 2 then "10"
  else if 2 ≤ hour ∧ hour < 4 then "11"
  else "12"

/-- The `mirror_map` of `get_active_atmospheres_for_time`: periods 7-12
read their configuration from periods 1-6. -/
def mirrorReadSource (time_period : String) : String :=
  match time_period with
  | "7" => "1"
  | "8" => "2"
  | "9" => "3"
  | "10" => "4"
  | "11" => "5"
  | "12" => "6"
  | other => other

/-- `day_times.get(source_time, {}).get('atmospheres', [])`. -/
def slotAtmospheres (day_times : List (String × DaySlot)) (k : String) :
    List String :=
  ((List.lookup k day_times).bind DaySlot.atmospheres).getD []

/-- `get_active_atmospheres_for_time` (src/app.py lines 291-315): resolve
a period through the mirror map, falling back to `['All Images']` when the
slot has no assigned atmospheres. -/
def getActiveAtmospheresForTime (time_period : String) (s : Settings) :
    List String :=
  let day_times := s.day_times.getD []
  let source_time := mirrorReadSource time_period
  let atmospheres := slotAtmospheres day_times source_time
  if atmospheres = [] then ["All Images"] else atmospheres

/-! ## Selection resolver (src/app.py: `list_images`, `get_current_interval`) -/

/-- An element of the JSON array answered by `GET /api/images`, reduced to
the fields the claims observe (`url` is derived from the name and `size`
from the file system). -/
structure MediaItem where
  name : String
  enabled : Bool
  themes : List String
  kind : String
deriving DecidableEq, Repr

/-- The theme filter computed at the top of `list_images` (src/app.py
lines 383-410): `none` is Python's `allowed_themes = None`, meaning no
filtering.  Only computed when `enabled_only` is set. -/
def allowedThemes (s : Settings) (hour : Nat) (enabled_only : Bool) :
    Option (List String) :=
  if enabled_only then
    if s.day_scheduling_enabled.getD false then
      let current_time := getCurrentTimePeriod hour
      let time_atmospheres := getActiveAtmospheresForTime current_time s
      let collected := time_atmospheres.foldl
        (fun acc atm_name =>
          acc ++ ((s.atmosphere_themes.getD []).lookup atm_name).getD []) []
      if collected = [] then none else some collected
    else
      match truthyStr s.activeAtmosphere with
      | some a =>
        let atm_themes := ((s.atmosphere_themes.getD []).lookup a).getD []
        if a = "All Images" ∨ atm_themes = [] then none
        else some atm_themes
      | none =>
        match truthyStr s.activeTheme with
        | some t => if t ≠ "All Images" then some [t] else none
        | none => none
  else none

/-- The two item loops of `list_images` (src/app.py lines 416-473), with
the theme filter given as an argument: enabled look-ups default to `true`,
disabled items are skipped when `enabled_only`, and a `some` filter keeps
an item only when its theme list intersects the filter.  `disk` is the
sorted listing of the upload folder restricted to allowed extensions. -/
def buildItems (s : Settings) (disk : List String)
    (filter : Option (List String)) (enabled_only : Bool) : List MediaItem :=
  let imgs := disk.filterMap (fun name =>
    let enabled := ((s.enabled_images.getD []).lookup name).getD true
    if enabled_only ∧ ¬enabled then none
    else
      let image_theme_list := ((s.image_themes.getD []).lookup name).getD []
      match filter with
      | some ts =>
        if image_theme_list.any (fun t => ts.contains t) then
          some ⟨name, enabled, image_theme_list, "image"⟩
        else none
      | none => some ⟨name, enabled, image_theme_list, "image"⟩)
  let vids := (s.video_urls.getD []).filterMap (fun v =>
    let enabled := ((s.enabled_videos.getD []).lookup v.id).getD true
    if enabled_only ∧ ¬enabled then none
    else
      let video_theme_list := ((s.video_themes.getD []).lookup v.id).getD []
      match filter with
      | some ts =>
        if video_theme_list.any (fun t => ts.contains t) then
          some ⟨v.id, enabled, video_theme_list, "video"⟩
        else none
      | none => some ⟨v.id, enabled, video_theme_list, "video"⟩)
  imgs ++ vids

/-- The eligible item list of `GET /api/images` before the shuffle step. -/
def listEligible (s : Settings) (disk : List String) (hour : Nat)
    (enabled_only : Bool) : List MediaItem :=
  buildItems s disk (allowedThemes s hour enabled_only) enabled_only

/-- `get_current_interval` (src/app.py lines 598-637).  Each stage answers
`some` when its `return` statement runs and `none` when control falls
through to the next stage.  The final fallback is
`settings.get('interval', 3600)`. -/
def getCurrentInterval (s : Settings) (hour : Nat) : Nat :=
  let fromDay : Option Nat :=
    if s.day_scheduling_enabled.getD false then
      match getActiveAtmospheresForTime (getCurrentTimePeriod hour) s with
      | [] => none
      | first_atm :: _ =>
        ((s.atmospheres.getD []).lookup first_atm).map
          (fun info => info.interval.getD 3600)
    else none
  let fromAtmosphere : Option Nat :=
    match truthyStr s.activeAtmosphere with
    | some a =>
      ((s.atmospheres.getD []).lookup a).map (fun info => info.interval.getD 3600)
    | none => none
  let fromTheme : Option Nat :=
    match truthyStr s.activeTheme with
    | some t =>
      ((s.themes.getD []).lookup t).map (fun info => info.interval.getD 3600)
    | none => none
  ((fromDay <|> fromAtmosphere) <|> fromTheme).getD (s.interval.getD 3600)

/-! ### Spec-side resolvers for the precedence claim

`claimFilter`/`claimInterval` transcribe the claim exactly as stated;
`specFilter`/`specInterval` transcribe the amended statement.  Both are
written from the specification's words, to be compared with the
source-derived `allowedThemes`/`getCurrentInterval`. -/

/-- Theme filter dictated by the precedence claim as stated: (1) day
scheduling → the union of the theme sets of the period's atmospheres;
(2) else an active atmosphere that is set and not the unfiltered one →
its theme refs (empty list meaning unfiltered); (3) else an active theme
set and not "All Images" → that theme only; (4) else unfiltered. -/
def claimFilter (s : Settings) (hour : Nat) : Option (List String) :=
  if s.day_scheduling_enabled.getD false then
    some ((getActiveAtmospheresForTime (getCurrentTimePeriod hour) s).flatMap
      (fun a => ((s.atmosphere_themes.getD []).lookup a).getD []))
  else
    match truthyStr s.activeAtmosphere with
    | some a =>
      if a = "All Images" then
        match truthyStr s.activeTheme with
        | some t => if t = "All Images" then none else some [t]
        | none => none
      else
        let refs := ((s.atmosphere_themes.getD []).lookup a).getD []
        if refs = [] then none else some refs
    | none =>
      match truthyStr s.activeTheme with
      | some t => if t = "All Images" then none else some [t]
      | none => none

/-- Interval dictated by the precedence claim as stated, case for case
with `claimFilter`: the first day atmosphere's interval, else the active
atmosphere's, else the active theme's, else the stored default. -/
def claimInterval (s : Settings) (hour : Nat) : Nat :=
  if s.day_scheduling_enabled.getD false then
    match getActiveAtmospheresForTime (getCurrentTimePeriod hour) s with
    | [] => s.interval.getD 3600
    | first_atm :: _ =>
      (((s.atmospheres.getD []).lookup first_atm).map
        (fun info => info.interval.getD 3600)).getD 3600
  else
    match truthyStr s.activeAtmosphere with
    | some a =>
      if a = "All Images" then claimIntervalThemeCase s
      else
        (((s.atmospheres.getD []).lookup a).map
          (fun info => info.interval.getD 3600)).getD 3600
    | none => claimIntervalThemeCase s
where
  /-- Cases (3) and (4) of the claim: the active theme's interval when a
  non-"All Images" theme is active, else the stored default interval. -/
  claimIntervalThemeCase (s : Settings) : Nat :=
    match truthyStr s.activeTheme with
    | some t =>
      if t = "All Images" then s.interval.getD 3600
      else
        (((s.themes.getD []).lookup t).map
          (fun info => info.interval.getD 3600)).getD 3600
    | none => s.interval.getD 3600

/-- Theme filter of the amended precedence statement: as the claim, except
that in case (1) an empty union resolves to unfiltered, and that case (2)
applies to every set active atmosphere, resolving to unfiltered when the
atmosphere is "All Images" or its theme-ref list is empty (so an active
"All Images" atmosphere shadows the active theme instead of falling
through to it). -/
def specFilter (s : Settings) (hour : Nat) : Option (List String) :=
  if s.day_scheduling_enabled.getD false then
    let union := (getActiveAtmospheresForTime (getCurrentTimePeriod hour) s).flatMap
      (fun a => ((s.atmosphere_themes.getD []).lookup a).getD [])
    if union = [] then none else some union
  else
    match truthyStr s.activeAtmosphere with
    | some a =>
      let refs := ((s.atmosphere_themes.getD []).lookup a).getD []
      if a = "All Images" ∨ refs = [] then none else some refs
    | none =>
      match truthyStr s.activeTheme with
      | some t => if t = "All Images" then none else some [t]
      | none => none

/-- Interval chain of the amended precedence statement: the day branch
applies only when day scheduling is on and the period's first atmosphere
exists in the atmosphere map; the atmosphere branch applies to every set
active atmosphere (including "All Images") that exists in the map; the
theme branch applies to every set active theme (including "All Images")
that exists in the theme map; otherwise the stored default interval. -/
def specInterval (s : Settings) (hour : Nat) : Nat :=
  let dayCase :=
    s.day_scheduling_enabled.getD false = true ∧
      (((s.atmospheres.getD []).lookup
        ((getActiveAtmospheresForTime (getCurrentTimePeriod hour) s).headD "")).isSome)
  if dayCase then
    ((((s.atmospheres.getD []).lookup
      ((getActiveAtmospheresForTime (getCurrentTimePeriod hour) s).headD "")).map
        (fun info => info.interval.getD 3600)).getD 3600)
  else
    match truthyStr s.activeAtmosphere with
    | some a =>
      match (s.atmospheres.getD []).lookup a with
      | some info => info.interval.getD 3600
      | none => specIntervalThemeCase s
    | none => specIntervalThemeCase s
where
  /-- Theme and default stages of the amended interval chain. -/
  specIntervalThemeCase (s : Settings) : Nat :=
    match truthyStr s.activeTheme with
    | some t =>
      match (s.themes.getD []).lookup t with
      | some info => info.interval.getD 3600
      | none => s.interval.getD 3600
    | none => s.interval.getD 3600

/-! ## Day-slot editing (src/app.py: `update_time_atmospheres`, lines 1249-1327) -/

/-- The valid `time_id` values accepted by the endpoint. -/
def validTimeIds : List String :=
  ["1", "2", "3", "4", "5", "6", "7", "8", "9", "10", "11", "12"]

/-- The `mirror_groups` dict: the mirror slots written alongside a source
slot (empty for the keys 7-12, which are not in the dict). -/
def mirrorTargets (time_id : String) : List String :=
  match time_id with
  | "1" => ["7"]
  | "2" => ["8"]
  | "3" => ["9"]
  | "4" => ["10"]
  | "5" => ["11"]
  | "6" => ["12"]
  | _ => []

/-- The `source_map` dict: the source slot of a mirror slot. -/
def sourceOf (time_id : String) : Option String :=
  match time_id with
  | "7" => some "1"
  | "8" => some "2"
  | "9" => some "3"
  | "10" => some "4"
  | "11" => some "5"
  | "12" => some "6"
  | _ => none

/-- `day_times[k]['atmospheres'] = atmospheres` on an existing key
(callers guard with `k in day_times`). -/
def setSlotAtmospheres (k : String) (A : List String)
    (m : List (String × DaySlot)) : List (String × DaySlot) :=
  m.map (fun p =>
    if p.1 = k then (p.1, ⟨p.2.start_hour, some A⟩) else p)

/-- `update_time_atmospheres` (src/app.py lines 1249-1327): validate the
id, write the slot, propagate the same list to the mirror peer (source
slots write their mirror; mirror slots write their source and skip
themselves), and regenerate `shuffle_id`.  `none` models the 400/404
error responses. -/
def updateTimeAtmospheres (time_id : String) (A : List String)
    (s : Settings) (fresh : Nat) : Option Settings :=
  if time_id ∉ validTimeIds then none
  else
    let day_times := s.day_times.getD []
    if (day_times.lookup time_id).isNone then none
    else
      let dt1 := setSlotAtmospheres time_id A day_times
      let dt2 :=
        if mirrorTargets time_id ≠ [] then
          (mirrorTargets time_id).foldl
            (fun m mid =>
              if (m.lookup mid).isSome then setSlotAtmospheres mid A m else m)
            dt1
        else
          match sourceOf time_id with
          | some source_id =>
            let m1 :=
              if (dt1.lookup source_id).isSome then
                setSlotAtmospheres source_id A dt1
              else dt1
            (mirrorTargets source_id).foldl
              (fun m mid =>
                if mid ≠ time_id ∧ (m.lookup mid).isSome then
                  setSlotAtmospheres mid A m
                else m)
              m1
          | none => dt1
      some { s with day_times := some dt2, shuffle_id := some fresh }

/-- The mirror peer of a slot: the slot 12 hours away (1↔7, ..., 6↔12). -/
def mirrorPeer (time_id : String) : String :=
  match time_id with
  | "1" => "7"
  | "2" => "8"
  | "3" => "9"
  | "4" => "10"
  | "5" => "11"
  | "6" => "12"
  | "7" => "1"
  | "8" => "2"
  | "9" => "3"
  | "10" => "4"
  | "11" => "5"
  | "12" => "6"
  | other => other

/-! ## Settings loading (src/app.py: `get_settings`, lines 92-224) -/

/-- The default `day_times` table (shared by the defaults dict and the
backfill branch of `get_settings`). -/
def defaultDayTimes : List (String × DaySlot) :=
  [("1", ⟨6, some []⟩), ("2", ⟨8, some []⟩), ("3", ⟨10, some []⟩),
   ("4", ⟨12, some []⟩), ("5", ⟨14, some []⟩), ("6", ⟨16, some []⟩),
   ("7", ⟨18, some []⟩), ("8", ⟨20, some []⟩), ("9", ⟨22, some []⟩),
   ("10", ⟨0, some []⟩), ("11", ⟨2, some []⟩), ("12", ⟨4, some []⟩)]

/-- Insert a dict entry unless the key is present (the
`if name not in dict:` backfill steps of `get_settings`). -/
def ensureEntry {β : Type} (name : String) (v : β) (m : List (String × β)) :
    List (String × β) :=
  if (m.lookup name).isSome then m else m ++ [(name, v)]

/-- Backfill of a protected theme or atmosphere entry with interval 3600. -/
def ensureIntervalEntry (name : String) (m : List (String × IntervalInfo)) :
    List (String × IntervalInfo) :=
  ensureEntry name ⟨some 3600⟩ m

/-- The `defaults` dict of `get_settings` (src/app.py lines 94-146).
`fresh` stands for the `random.random()` draw stored as `shuffle_id`. -/
def defaultSettings (fresh : Nat) : Settings where
  interval := some 600
  check_interval := some 2
  enabled_images := some []
  dissolve_enabled := some true
  themes := some [("All Images", ⟨some 3600⟩), ("Extras", ⟨some 3600⟩)]
  image_themes := some []
  active_theme := some (some "All Images")
  atmospheres := some [("All Images", ⟨some 3600⟩)]
  atmosphere_themes := some [("All Images", [])]
  active_atmosphere := some none
  day_scheduling_enabled := some false
  day_times := some defaultDayTimes
  shuffle_id := some fresh
  image_crops := some []
  video_urls := some []
  video_themes := some []
  enabled_videos := some []

/-- `get_settings` (src/app.py lines 92-224): answer the defaults when no
settings file exists; otherwise load the stored document and backfill the
keys the function checks for.  The stored `interval` and `video_urls`
keys are not among the checks.  `fresh` stands for the `random.random()`
draw used when `shuffle_id` must be backfilled. -/
def getSettings (stored : Option Settings) (fresh : Nat) : Settings :=
  match stored with
  | none => defaultSettings fresh
  | some s =>
    { interval := s.interval
      check_interval := some (s.check_interval.getD 2)
      enabled_images := some (s.enabled_images.getD [])
      dissolve_enabled := some (s.dissolve_enabled.getD true)
      themes := some (ensureIntervalEntry "Extras"
        (ensureIntervalEntry "All Images" (s.themes.getD [])))
      image_themes := some (s.image_themes.getD [])
      active_theme := some (s.active_theme.getD (some "All Images"))
      atmospheres := some (ensureIntervalEntry "All Images" (s.atmospheres.getD []))
      atmosphere_themes := some
        (ensureEntry "All Images" [] (s.atmosphere_themes.getD []))
      active_atmosphere := some (s.active_atmosphere.getD none)
      shuffle_id := some (s.shuffle_id.getD fresh)
      image_crops := some (s.image_crops.getD [])
      video_themes := some (s.video_themes.getD [])
      enabled_videos := some (s.enabled_videos.getD [])
      day_scheduling_enabled := some (s.day_scheduling_enabled.getD false)
      day_times := some (s.day_times.getD defaultDayTimes)
      video_urls := s.video_urls }

/-! ## Theme deletion (src/app.py: `delete_theme`, lines 881-913) -/

/-- `delete_theme`: refuse the protected names with 400, unknown names
with 404; otherwise remove the theme from the theme dict, call
`list.remove` (first occurrence) on every image's theme list that
contains it, and, when it was the active theme, switch the active theme
to "All Images" and sync the stored interval to that theme's.  The error
cases carry the HTTP status. -/
def deleteTheme (theme_name : String) (s : Settings) : Except Nat Settings :=
  if theme_name = "All Images" ∨ theme_name = "Extras" then .error 400
  else
    let themes := s.themes.getD []
    if (themes.lookup theme_name).isNone then .error 404
    else
      let themes2 := themes.filter (fun p => p.1 ≠ theme_name)
      let image_themes := (s.image_themes.getD []).map
        (fun p => (p.1, p.2.erase theme_name))
      let s1 := { s with themes := some themes2, image_themes := some image_themes }
      if s.activeTheme = some theme_name then
        let s2 := { s1 with active_theme := some (some "All Images") }
        match themes2.lookup "All Images" with
        | some info => .ok { s2 with interval := some (info.interval.getD 3600) }
        | none => .ok s2
      else .ok s1

/-! ## Day-scheduling toggles (src/app.py lines 1196-1246) -/

/-- `toggle_day_scheduling` (`POST /api/day/toggle`): store the requested
flag, revert the active atmosphere to "All Images" when disabling, and
regenerate `shuffle_id` (`fresh` stands for the `random.random()` draw). -/
def toggleDayScheduling (enabled : Bool) (s : Settings) (fresh : Nat) : Settings :=
  let s1 := { s with day_scheduling_enabled := some enabled }
  let s2 := if ¬enabled then { s1 with active_atmosphere := some (some "All Images") }
            else s1
  { s2 with shuffle_id := some fresh }

/-- `disable_day_scheduling` (`POST /api/day/disable`): clear the flag,
clear the active atmosphere to `None`, and regenerate `shuffle_id`. -/
def disableDayScheduling (s : Settings) (fresh : Nat) : Settings :=
  { s with day_scheduling_enabled := some false,
           active_atmosphere := some none,
           shuffle_id := some fresh }

/-! ## Ingestion (src/app.py: `upload_image` lines 486-527, `add_video`
lines 1827-1868) -/

/-- Write a key of a string-keyed dict: rewrite an existing entry in
place, append a missing one. -/
def dictSet (k : String) (v : α) (m : List (String × α)) : List (String × α) :=
  if (m.lookup k).isSome then
    m.map (fun p => if p.1 = k then (p.1, v) else p)
  else m ++ [(k, v)]

/-- The settings mutation of `upload_image` after the file is saved under
the fresh name `filename`: assign the new image to the active theme
unless the active theme is unset or "All Images", in which case the
settings are not touched. -/
def uploadImageSettings (filename : String) (s : Settings) : Settings :=
  match truthyStr s.activeTheme with
  | some t =>
    if t ≠ "All Images" then
      { s with image_themes := some (dictSet filename [t] (s.image_themes.getD [])) }
    else s
  | none => s

/-- The settings mutation of `add_video` on the success path: append the
entry to `video_urls` under the fresh id `video_id`, enable it, and
assign it to the active theme unless that is unset or "All Images".
The `url` parameter stands for the stripped request URL — the handler
runs `data.get('url', '').strip()` (a standard-library string operation)
before any branching. -/
def addVideoSettings (url : String) (video_id : String) (s : Settings) :
    Settings :=
  let videos := (s.video_urls.getD []) ++ [⟨video_id, url⟩]
  let s1 := { s with video_urls := some videos,
                     enabled_videos := some
                       (dictSet video_id true (s.enabled_videos.getD [])) }
  match truthyStr s.activeTheme with
  | some t =>
    if t ≠ "All Images" then
      { s1 with
        video_themes := some (dictSet video_id [t] (s1.video_themes.getD [])) }
    else s1
  | none => s1

/-- `add_video`: reject a blank (stripped) URL with 400; otherwise apply
`addVideoSettings`. -/
def addVideo (url : String) (video_id : String) (s : Settings) :
    Option Settings :=
  if url = "" then none else some (addVideoSettings url video_id s)

/-! ## Association-list lemmas -/

theorem lookup_cons_eq {β : Type} (k a : String) (b : β) (t : List (String × β)) :
    List.lookup k ((a, b) :: t) = if k = a then some b else List.lookup k t := by
  by_cases h : k = a
  · subst h; simp [List.lookup]
  · have hb : (k == a) = false := beq_eq_false_iff_ne.mpr h
    simp [List.lookup, hb, h]

theorem lookup_append_none {β : Type} (k : String) (m l : List (String × β))
    (h : m.lookup k = none) : (m ++ l).lookup k = l.lookup k := by
  induction m with
  | nil => simp
  | cons p t ih =>
    obtain ⟨a, b⟩ := p
    rw [lookup_cons_eq] at h
    by_cases hk : k = a
    · simp [hk] at h
    · rw [List.cons_append, lookup_cons_eq, if_neg hk]
      exact ih (by simpa [hk] using h)

theorem lookup_append_some {β : Type} (k : String) (m l : List (String × β))
    {v : β} (h : m.lookup k = some v) : (m ++ l).lookup k = some v := by
  induction m with
  | nil => simp at h
  | cons p t ih =>
    obtain ⟨a, b⟩ := p
    rw [lookup_cons_eq] at h
    by_cases hk : k = a
    · rw [List.cons_append, lookup_cons_eq, if_pos hk]
      simpa [hk] using h
    · rw [List.cons_append, lookup_cons_eq, if_neg hk]
      exact ih (by simpa [hk] using h)

theorem lookup_map_value {β γ : Type} (k : String) (f : β → γ)
    (m : List (String × β)) :
    (m.map (fun p => (p.1, f p.2))).lookup k = (m.lookup k).map f := by
  induction m with
  | nil => simp
  | cons p t ih =>
    obtain ⟨a, b⟩ := p
    by_cases hk : k = a
    · simp [lookup_cons_eq, hk]
    · simp [lookup_cons_eq, hk, ih]

theorem lookup_setIf_self {β : Type} (k : String) (g : β → β)
    (m : List (String × β)) :
    (m.map (fun p => if p.1 = k then (p.1, g p.2) else p)).lookup k =
      (m.lookup k).map g := by
  induction m with
  | nil => simp
  | cons p t ih =>
    obtain ⟨a, b⟩ := p
    by_cases hk : a = k
    · subst hk
      simp [lookup_cons_eq, ih]
    · have hk2 : k ≠ a := fun h => hk h.symm
      simp [lookup_cons_eq, hk, hk2, ih]

theorem lookup_setIf_ne {β : Type} (k k' : String) (g : β → β)
    (m : List (String × β)) (hne : k' ≠ k) :
    (m.map (fun p => if p.1 = k then (p.1, g p.2) else p)).lookup k' =
      m.lookup k' := by
  induction m with
  | nil => simp
  | cons p t ih =>
    obtain ⟨a, b⟩ := p
    by_cases hk : a = k
    · subst hk
      simp [lookup_cons_eq, hne, ih]
    · by_cases hk' : k' = a
      · simp [lookup_cons_eq, hk, hk']
      · simp [lookup_cons_eq, hk, hk', ih]

theorem lookup_filterNe_self {β : Type} (k : String) (m : List (String × β)) :
    (m.filter (fun p => p.1 ≠ k)).lookup k = none := by
  induction m with
  | nil => simp
  | cons p t ih =>
    obtain ⟨a, b⟩ := p
    by_cases hk : a = k
    · simpa [List.filter, hk] using ih
    · have hk2 : k ≠ a := fun h => hk h.symm
      simpa [List.filter, hk, lookup_cons_eq, hk2] using ih

theorem lookup_dictSet_self {β : Type} (k : String) (v : β)
    (m : List (String × β)) : (dictSet k v m).lookup k = some v := by
  unfold dictSet
  by_cases h : (m.lookup k).isSome
  · rw [if_pos h, lookup_setIf_self k (fun _ => v) m]
    obtain ⟨w, hw⟩ := Option.isSome_iff_exists.mp h
    rw [hw]; rfl
  · rw [if_neg h]
    have hnone : m.lookup k = none := Option.not_isSome_iff_eq_none.mp h
    rw [lookup_append_none k m _ hnone, lookup_cons_eq, if_pos rfl]

theorem lookup_ensureEntry_self {β : Type} (n : String) (v : β)
    (m : List (String × β)) : ((ensureEntry n v m).lookup n).isSome := by
  unfold ensureEntry
  by_cases h : (m.lookup n).isSome
  · rwa [if_pos h]
  · rw [if_neg h]
    have hnone : m.lookup n = none := Option.not_isSome_iff_eq_none.mp h
    rw [lookup_append_none n m _ hnone, lookup_cons_eq, if_pos rfl]
    rfl

theorem lookup_ensureEntry_mono {β : Type} (n k : String) (v : β)
    (m : List (String × β)) (h : (m.lookup k).isSome) :
    ((ensureEntry n v m).lookup k).isSome := by
  unfold ensureEntry
  by_cases hp : (m.lookup n).isSome
  · rwa [if_pos hp]
  · rw [if_neg hp]
    obtain ⟨w, hw⟩ := Option.isSome_iff_exists.mp h
    rw [lookup_append_some k m _ hw]
    rfl

/-! ## Claim C2: deterministic shuffle with a restored global generator -/

/-- C2.  The display order computed at the end of `list_images` is a
function of the eligible items and the stored `shuffle_id` alone: it
equals the pure `pyShuffle`, is unchanged when the operation is repeated,
and is independent of the incoming global generator state.  Moreover the
global generator state after the operation is exactly the fresh entropy
of the final `random.seed()` call — independent of the items and of the
seed — so randomness used elsewhere is unaffected by the shuffle. -/
theorem list_images_shuffle_deterministic_and_reseeded :
    ∀ (items items2 : List MediaItem) (seed seed2 : Nat) (g g' e : RngState),
      (listShuffleRun items seed g e).1 = pyShuffle seed items ∧
      (listShuffleRun items seed g e).1 = (listShuffleRun items seed g' e).1 ∧
      (listShuffleRun items seed g e).2 = e ∧
      (listShuffleRun items seed g e).2 = (listShuffleRun items2 seed2 g' e).2 := by
  intro items items2 seed seed2 g g' e
  exact ⟨rfl, rfl, rfl, rfl⟩

/-! ## Claim C3: pull-mailbox TTL -/

/-- C3 counterexample.  The claim states that a poll at `t ≥ t0 + 5`
clears the expired entry from the slot.  Enqueue `next` at time 0 and
poll at time 5: the poll answers no command, but the slot still holds the
entry — the expired branch of `poll_command` does not clear it. -/
theorem poll_expired_entry_not_cleared :
    (pollCommand (sendCommand ⟨some "next", none⟩ ⟨none, 0⟩ 0).1 5).2 = none ∧
    (pollCommand (sendCommand ⟨some "next", none⟩ ⟨none, 0⟩ 0).1 5).1.current_command
      = some (.simple "next") := by
  exact ⟨rfl, rfl⟩

/-- C3 amended.  A command enqueued at `t0` is delivered by a poll at any
`t` with `t - t0 < 5`, which clears the slot so an immediately following
poll returns no command; a poll at `t ≥ t0 + 5` returns no command and
leaves the mailbox unchanged — the expired entry is not cleared, but it
remains undeliverable to any later poll at a time `≥ t0 + 5`. -/
theorem poll_ttl_amended :
    ∀ (c : PyCmd) (t0 t t' : Int),
      (t - t0 < 5 →
        pollCommand ⟨some c, t0⟩ t = (⟨none, t0⟩, some c) ∧
        (pollCommand (pollCommand ⟨some c, t0⟩ t).1 t').2 = none) ∧
      (5 ≤ t - t0 →
        pollCommand ⟨some c, t0⟩ t = (⟨some c, t0⟩, none) ∧
        (5 ≤ t' - t0 →
          (pollCommand (pollCommand ⟨some c, t0⟩ t).1 t').2 = none)) := by
  intro c t0 t t'
  constructor
  · intro h
    simp [pollCommand, h]
  · intro h
    have hn : ¬ (t - t0 < 5) := by omega
    refine ⟨by simp [pollCommand, hn], fun h' => ?_⟩
    have hn' : ¬ (t' - t0 < 5) := by omega
    simp [pollCommand, hn, hn']

/-- C3 witness: the amended theorem applied to the command `next`
enqueued at time 0, polled at times 3 (fresh) and 5 (expired). -/
theorem poll_ttl_amended_witness :
    ((3 : Int) - 0 < 5 ∧
      pollCommand ⟨some (.simple "next"), 0⟩ 3 = (⟨none, 0⟩, some (.simple "next"))) ∧
    ((5 : Int) ≤ 5 - 0 ∧
      pollCommand ⟨some (.simple "next"), 0⟩ 5 = (⟨some (.simple "next"), 0⟩, none)) :=
  ⟨⟨by decide, ((poll_ttl_amended (.simple "next") 0 3 7).1 (by decide)).1⟩,
   ⟨by decide, ((poll_ttl_amended (.simple "next") 0 5 7).2 (by decide)).1⟩⟩

/-! ## Claim C8: command vocabulary of `POST /api/control/send` -/

/-- C8 counterexample.  The claim includes `jumpExtra(targetId)` and
`refreshCrop(targetId)` in the vocabulary accepted by
`POST /api/control/send`, but the endpoint rejects both wire commands
(`jump_extra`, `refresh_extra_crop`) with a 400 — they are only handled
by the WebSocket `send_command` event. -/
theorem send_extra_commands_rejected :
    (sendCommand ⟨some "jump_extra", some "pic.jpg"⟩ ⟨none, 0⟩ 0).2.status = 400 ∧
    (sendCommand ⟨some "refresh_extra_crop", some "pic.jpg"⟩ ⟨none, 0⟩ 0).2.status = 400 := by
  exact ⟨by decide, by decide⟩

/-- C8 amended.  `POST /api/control/send` accepts exactly the kinds
`next`, `prev`, `pause`, `play`, `reload`, and `jump` with a non-empty
`image_name`; an accepted command is echoed in the response, and every
other request — including `jump_extra` and `refresh_extra_crop`, which
only the WebSocket channel accepts — is answered with status 400 and
leaves the pull mailbox untouched. -/
theorem send_command_vocabulary_amended :
    ∀ (data : SendData) (mb : Mailbox) (now : Int),
      ((sendCommand data mb now).2.status = 200 ∨
        (sendCommand data mb now).2.status = 400) ∧
      ((sendCommand data mb now).2.status = 200 ↔
        (data.command = some "next" ∨ data.command = some "prev" ∨
         data.command = some "pause" ∨ data.command = some "play" ∨
         data.command = some "reload" ∨
         (data.command = some "jump" ∧ truthyStr data.image_name ≠ none))) ∧
      ((sendCommand data mb now).2.status = 200 →
        (sendCommand data mb now).2.command = data.command) ∧
      ((sendCommand data mb now).2.status = 400 →
        (sendCommand data mb now).1 = mb) := by
  intro data mb now
  obtain ⟨cmd, img⟩ := data
  match cmd with
  | none => simp [sendCommand]
  | some c =>
    by_cases hj : c = "jump"
    · subst hj
      match himg : truthyStr img with
      | none => simp [sendCommand, himg]
      | some n => simp [sendCommand, himg]
    · by_cases hv : c = "next" ∨ c = "prev" ∨ c = "pause" ∨ c = "play" ∨ c = "reload"
      · have hred : sendCommand ⟨some c, img⟩ mb now =
            (⟨some (.simple c), now⟩, ⟨200, some c, none⟩) := by
          simp [sendCommand, hj, hv]
        rw [hred]
        refine ⟨Or.inl rfl, ?_, fun _ => rfl, fun h => by simp at h⟩
        constructor
        · intro _
          rcases hv with h | h | h | h | h
          · exact Or.inl (by rw [h])
          · exact Or.inr (Or.inl (by rw [h]))
          · exact Or.inr (Or.inr (Or.inl (by rw [h])))
          · exact Or.inr (Or.inr (Or.inr (Or.inl (by rw [h]))))
          · exact Or.inr (Or.inr (Or.inr (Or.inr (Or.inl (by rw [h])))))
        · intro _; rfl
      · have hred : sendCommand ⟨some c, img⟩ mb now = (mb, ⟨400, none, none⟩) := by
          simp [sendCommand, hj, hv]
        rw [hred]
        refine ⟨Or.inr rfl, ?_, fun h => by simp at h, fun _ => rfl⟩
        constructor
        · intro h; simp at h
        · intro h
          exfalso
          rcases h with h | h | h | h | h | ⟨h, _⟩
          · exact hv (Or.inl (Option.some.inj h))
          · exact hv (Or.inr (Or.inl (Option.some.inj h)))
          · exact hv (Or.inr (Or.inr (Or.inl (Option.some.inj h))))
          · exact hv (Or.inr (Or.inr (Or.inr (Or.inl (Option.some.inj h)))))
          · exact hv (Or.inr (Or.inr (Or.inr (Or.inr (Option.some.inj h)))))
          · exact hj (Option.some.inj h)

/-! ## Claim C5: the avoid-repeat reshuffle -/

/-- Invariant of the `reshuffle_images` retry loop, by induction on the
remaining attempts: the operation always succeeds; a result installed
without a warning has a first item different from the avoided name; a
result installed with the warning is the seed of the final attempt. -/
theorem reshuffleGo_spec (images : List String) (avoid : String)
    (seeds : Nat → Nat) :
    ∀ (fuel i : Nat),
      (reshuffleGo images avoid seeds fuel i).success = true ∧
      ((reshuffleGo images avoid seeds fuel i).warning = false →
        (pyShuffle (reshuffleGo images avoid seeds fuel i).shuffle_id images).head?
          ≠ some avoid) ∧
      ((reshuffleGo images avoid seeds fuel i).warning = true →
        (reshuffleGo images avoid seeds fuel i).shuffle_id = seeds (i + fuel - 1)) := by
  intro fuel
  induction fuel with
  | zero =>
    intro i
    exact ⟨rfl, fun h => by simp [reshuffleGo] at h, fun _ => rfl⟩
  | succ n ih =>
    intro i
    by_cases h : (pyShuffle (seeds i) images).head? ≠ some avoid
    · have hred : reshuffleGo images avoid seeds (n + 1) i =
          ⟨true, seeds i, false⟩ := by
        simp [reshuffleGo, h]
      rw [hred]
      exact ⟨rfl, fun _ => h, fun hw => by simp at hw⟩
    · have hred : reshuffleGo images avoid seeds (n + 1) i =
          reshuffleGo images avoid seeds n (i + 1) := by
        simp [reshuffleGo, h]
      rw [hred]
      obtain ⟨h1, h2, h3⟩ := ih (i + 1)
      refine ⟨h1, h2, fun hw => ?_⟩
      rw [h3 hw]
      congr 1
      omega

/-- C5.  For an eligible set of at least two items and a (non-blank)
avoided name, `reshuffle_images` always answers success; whenever the
response carries no warning the installed `shuffle_id` yields an order
whose first item is not the avoided one; and when all 100 attempts fail
it installs the seed of the last attempt, reporting only the soft
warning. -/
theorem reshuffle_avoid_first_guarantee :
    ∀ (images : List String) (a : String) (seeds : Nat → Nat),
      2 ≤ images.length → a ≠ "" →
      (reshuffleAvoid images (some a) seeds).success = true ∧
      ((reshuffleAvoid images (some a) seeds).warning = false →
        (pyShuffle (reshuffleAvoid images (some a) seeds).shuffle_id images).head?
          ≠ some a) ∧
      ((reshuffleAvoid images (some a) seeds).warning = true →
        (reshuffleAvoid images (some a) seeds).shuffle_id = seeds 99) := by
  intro images a seeds hlen ha
  have hred : reshuffleAvoid images (some a) seeds =
      reshuffleGo images a seeds 100 0 := by
    have hlen2 : ¬ images.length ≤ 1 := by omega
    simp [reshuffleAvoid, truthyStr, ha, hlen2]
  rw [hred]
  exact reshuffleGo_spec images a seeds 100 0

/-- C5 witness: the theorem applied to the two-image set
`[a.jpg, b.jpg]`, avoiding `a.jpg`, with the identity seed stream. -/
theorem reshuffle_avoid_first_witness :
    2 ≤ (["a.jpg", "b.jpg"] : List String).length ∧ "a.jpg" ≠ "" ∧
    (reshuffleAvoid ["a.jpg", "b.jpg"] (some "a.jpg") (fun n => n)).success = true :=
  ⟨by decide, by decide,
    (reshuffle_avoid_first_guarantee ["a.jpg", "b.jpg"] "a.jpg" (fun n => n)
      (by decide) (by decide)).1⟩

/-! ## Claim C7: self-healing settings load -/

/-- C7 counterexample.  Loading a stored settings document that is
missing every key succeeds, but the result still lacks the documented
`interval` and `video_urls` keys: `get_settings` has no backfill check
for either, so they are not restored to their defaults (600 and `[]`). -/
theorem get_settings_not_fully_backfilled :
    (getSettings (some {}) 0).interval = none ∧
    (getSettings (some {}) 0).video_urls = none :=
  ⟨rfl, rfl⟩

/-- C7 amended.  Loading any stored settings document never fails, and
every documented key except `interval` and `video_urls` is backfilled
with its documented default when missing (`check_interval` 2,
`enabled_images` {}, `dissolve_enabled` true, the protected "All Images"
and "Extras" themes, `image_themes` {}, `active_theme` "All Images", the
"All Images" atmosphere and its empty theme list, `active_atmosphere`
None, `shuffle_id` a fresh draw, `image_crops` {}, `video_themes` {},
`enabled_videos` {}, `day_scheduling_enabled` false, and the twelve
default day slots); present keys are kept.  The `interval` and
`video_urls` keys pass through unchanged: when absent they stay absent
and callers fall back at each read site. -/
theorem get_settings_backfill_amended :
    ∀ (s : Settings) (fresh : Nat),
      (getSettings (some s) fresh).check_interval = some (s.check_interval.getD 2) ∧
      (getSettings (some s) fresh).enabled_images = some (s.enabled_images.getD []) ∧
      (getSettings (some s) fresh).dissolve_enabled = some (s.dissolve_enabled.getD true) ∧
      ((((getSettings (some s) fresh).themes.getD []).lookup "All Images").isSome) ∧
      ((((getSettings (some s) fresh).themes.getD []).lookup "Extras").isSome) ∧
      (getSettings (some s) fresh).image_themes = some (s.image_themes.getD []) ∧
      (getSettings (some s) fresh).active_theme = some (s.active_theme.getD (some "All Images")) ∧
      ((((getSettings (some s) fresh).atmospheres.getD []).lookup "All Images").isSome) ∧
      ((((getSettings (some s) fresh).atmosphere_themes.getD []).lookup "All Images").isSome) ∧
      (getSettings (some s) fresh).active_atmosphere = some (s.active_atmosphere.getD none) ∧
      (getSettings (some s) fresh).shuffle_id = some (s.shuffle_id.getD fresh) ∧
      (getSettings (some s) fresh).image_crops = some (s.image_crops.getD []) ∧
      (getSettings (some s) fresh).video_themes = some (s.video_themes.getD []) ∧
      (getSettings (some s) fresh).enabled_videos = some (s.enabled_videos.getD []) ∧
      (getSettings (some s) fresh).day_scheduling_enabled = some (s.day_scheduling_enabled.getD false) ∧
      (getSettings (some s) fresh).day_times = some (s.day_times.getD defaultDayTimes) ∧
      (getSettings (some s) fresh).interval = s.interval ∧
      (getSettings (some s) fresh).video_urls = s.video_urls := by
  intro s fresh
  refine ⟨rfl, rfl, rfl, ?_, ?_, rfl, rfl, ?_, ?_, rfl, rfl, rfl, rfl, rfl, rfl, rfl, rfl, rfl⟩
  · exact lookup_ensureEntry_mono "Extras" "All Images" _ _
      (lookup_ensureEntry_self "All Images" _ _)
  · exact lookup_ensureEntry_self "Extras" _ _
  · exact lookup_ensureEntry_self "All Images" _ _
  · exact lookup_ensureEntry_self "All Images" _ _

/-! ## Claim C9: the two day-scheduling disable paths differ -/

/-- C9.  For every starting state, `POST /api/day/toggle` with
`enabled = false` reverts the active atmosphere to "All Images" while
`POST /api/day/disable` clears it to `None`; both clear
`day_scheduling_enabled` and install the fresh `shuffle_id` draw.  The
final conjuncts show on a concrete state (active theme `T1`) that the two
paths then resolve selection differently: after the toggle path the
"All Images" atmosphere shadows the theme (no filter), while after the
disable path the active theme filters to `T1`. -/
theorem day_disable_paths_differ :
    (∀ (s : Settings) (fresh : Nat),
      (toggleDayScheduling false s fresh).active_atmosphere = some (some "All Images") ∧
      (toggleDayScheduling false s fresh).day_scheduling_enabled = some false ∧
      (toggleDayScheduling false s fresh).shuffle_id = some fresh ∧
      (disableDayScheduling s fresh).active_atmosphere = some none ∧
      (disableDayScheduling s fresh).day_scheduling_enabled = some false ∧
      (disableDayScheduling s fresh).shuffle_id = some fresh) ∧
    allowedThemes (toggleDayScheduling false { active_theme := some (some "T1") } 7) 12 true
      = none ∧
    allowedThemes (disableDayScheduling { active_theme := some (some "T1") } 7) 12 true
      = some ["T1"] := by
  refine ⟨fun s fresh => ⟨rfl, rfl, rfl, rfl, rfl, rfl⟩, ?_, ?_⟩ <;> decide

/-! ## Claim C10: ingestion assigns the active theme -/

theorem addVideoSettings_video_urls (url vid : String) (s : Settings) :
    (addVideoSettings url vid s).video_urls =
      some ((s.video_urls.getD []) ++ [⟨vid, url⟩]) := by
  unfold addVideoSettings
  rcases truthyStr s.activeTheme with _ | t
  · rfl
  · by_cases ht : t = "All Images" <;> simp [ht]

theorem addVideoSettings_enabled_videos (url vid : String) (s : Settings) :
    (addVideoSettings url vid s).enabled_videos =
      some (dictSet vid true (s.enabled_videos.getD [])) := by
  unfold addVideoSettings
  rcases truthyStr s.activeTheme with _ | t
  · rfl
  · by_cases ht : t = "All Images" <;> simp [ht]

theorem addVideoSettings_video_themes_assigned (url vid t : String)
    (s : Settings) (ht : truthyStr s.activeTheme = some t)
    (htne : t ≠ "All Images") :
    (addVideoSettings url vid s).video_themes =
      some (dictSet vid [t] (s.video_themes.getD [])) := by
  unfold addVideoSettings
  rw [ht]
  simp [htne]

theorem addVideoSettings_video_themes_unassigned (url vid : String)
    (s : Settings)
    (h : truthyStr s.activeTheme = none ∨
      truthyStr s.activeTheme = some "All Images") :
    (addVideoSettings url vid s).video_themes = s.video_themes := by
  unfold addVideoSettings
  rcases h with h | h <;> rw [h] <;> simp

/-- C10.  A successfully ingested item is assigned to the active theme
exactly when one is set and is not "All Images": the upload handler then
records `[activeTheme]` as the new image's theme list, and otherwise
leaves the new image without a theme entry; `add_video` does the same for
a registered video, which is also enabled by default and appended to
`video_urls`.  The freshness hypotheses reflect the UUID-generated names. -/
theorem ingest_assigns_active_theme :
    ∀ (s : Settings) (fn vid url : String),
      ((s.image_themes.getD []).lookup fn = none →
        (∀ t, truthyStr s.activeTheme = some t → t ≠ "All Images" →
          (((uploadImageSettings fn s).image_themes.getD []).lookup fn) = some [t]) ∧
        ((truthyStr s.activeTheme = none ∨ truthyStr s.activeTheme = some "All Images") →
          (((uploadImageSettings fn s).image_themes.getD []).lookup fn) = none)) ∧
      (url ≠ "" → (s.video_themes.getD []).lookup vid = none →
        addVideo url vid s = some (addVideoSettings url vid s) ∧
        (((addVideoSettings url vid s).video_urls.getD []).getLast?
          = some ⟨vid, url⟩) ∧
        (((addVideoSettings url vid s).enabled_videos.getD []).lookup vid
          = some true) ∧
        (∀ t, truthyStr s.activeTheme = some t → t ≠ "All Images" →
          ((addVideoSettings url vid s).video_themes.getD []).lookup vid = some [t]) ∧
        ((truthyStr s.activeTheme = none ∨ truthyStr s.activeTheme = some "All Images") →
          ((addVideoSettings url vid s).video_themes.getD []).lookup vid = none)) := by
  intro s fn vid url
  constructor
  · intro hfresh
    constructor
    · intro t ht htne
      unfold uploadImageSettings
      rw [ht]
      simp only [ne_eq, htne, not_false_iff, if_true]
      exact lookup_dictSet_self fn [t] _
    · intro hcase
      unfold uploadImageSettings
      rcases hcase with h | h
      · rw [h]
        exact hfresh
      · rw [h]
        simpa using hfresh
  · intro hurl hfreshv
    refine ⟨by simp [addVideo, hurl], ?_, ?_, ?_, ?_⟩
    · rw [addVideoSettings_video_urls]
      simp
    · rw [addVideoSettings_enabled_videos]
      exact lookup_dictSet_self vid true _
    · intro t ht htne
      rw [addVideoSettings_video_themes_assigned url vid t s ht htne]
      exact lookup_dictSet_self vid [t] _
    · intro hcase
      rw [addVideoSettings_video_themes_unassigned url vid s hcase]
      exact hfreshv

/-! ## Claim C6: theme deletion -/

theorem nodup_not_mem_erase (a : String) (l : List String) (h : l.Nodup) :
    a ∉ l.erase a := by
  intro hmem
  exact (h.mem_erase_iff.mp hmem).1 rfl

/-- Concrete settings for the theme-deletion counterexample: theme
`ThemeX` exists and video `vid-1` is assigned to it. -/
def themeDeletionState : Settings :=
  { themes := some [("All Images", ⟨some 3600⟩), ("ThemeX", ⟨some 60⟩)],
    image_themes := some [],
    video_themes := some [("vid-1", ["ThemeX"])],
    active_theme := some (some "All Images") }

/-- C6 counterexample.  Deleting `ThemeX` succeeds but the video item
`vid-1` still carries `ThemeX` in its theme list: `delete_theme` cleans
`image_themes` only and never touches `video_themes`, so the claim's
"for items of kind image and of kind video alike" fails on videos. -/
theorem delete_theme_keeps_video_assignment :
    (deleteTheme "ThemeX" themeDeletionState).toOption.map
      (fun s2 => (s2.video_themes.getD []).lookup "vid-1") = some (some ["ThemeX"]) := by
  rfl

/-- C6 amended.  For every theme other than the protected "All Images"
and "Extras" that exists in the theme map, deletion succeeds, removes the
theme from the theme map and from every image's theme list (the first
occurrence, hence every occurrence of a duplicate-free list), leaves the
video theme map untouched, and resets the active theme to "All Images"
exactly when the deleted theme was active. -/
theorem delete_theme_amended :
    ∀ (s : Settings) (name : String),
      name ≠ "All Images" → name ≠ "Extras" →
      ((s.themes.getD []).lookup name).isSome →
      ∃ s2, deleteTheme name s = .ok s2 ∧
        ((s2.themes.getD []).lookup name) = none ∧
        s2.image_themes =
          some ((s.image_themes.getD []).map (fun p => (p.1, p.2.erase name))) ∧
        (∀ img l, ((s.image_themes.getD []).lookup img) = some l → l.Nodup →
          name ∉ (((s2.image_themes.getD []).lookup img).getD [])) ∧
        s2.video_themes = s.video_themes ∧
        (s.activeTheme = some name → s2.active_theme = some (some "All Images")) ∧
        (s.activeTheme ≠ some name → s2.active_theme = s.active_theme) := by
  intro s name h1 h2 h3
  have hprot : ¬ (name = "All Images" ∨ name = "Extras") := by tauto
  have hnn : ¬ ((s.themes.getD []).lookup name).isNone := by
    rw [Option.isNone_iff_eq_none]
    intro h
    rw [h] at h3
    exact absurd h3 (by simp)
  have himgs : ∀ s2 : Settings,
      s2.image_themes =
        some ((s.image_themes.getD []).map (fun p => (p.1, p.2.erase name))) →
      (∀ img l, ((s.image_themes.getD []).lookup img) = some l → l.Nodup →
        name ∉ (((s2.image_themes.getD []).lookup img).getD [])) := by
    intro s2 hfield img l hl hnd
    rw [hfield]
    simp only [Option.getD_some]
    rw [lookup_map_value img (fun v : List String => v.erase name) _, hl]
    simpa using nodup_not_mem_erase name l hnd
  unfold deleteTheme
  rw [if_neg hprot, if_neg hnn]
  by_cases hact : s.activeTheme = some name
  · rw [if_pos hact]
    rcases hall : ((s.themes.getD []).filter (fun p => p.1 ≠ name)).lookup "All Images"
      with _ | info <;> rw [hall]
    · refine ⟨_, rfl, ?_, rfl, himgs _ rfl, rfl, fun _ => rfl, fun hne => absurd hact hne⟩
      simpa using lookup_filterNe_self name (s.themes.getD [])
    · refine ⟨_, rfl, ?_, rfl, himgs _ rfl, rfl, fun _ => rfl, fun hne => absurd hact hne⟩
      simpa using lookup_filterNe_self name (s.themes.getD [])
  · rw [if_neg hact]
    refine ⟨_, rfl, ?_, rfl, himgs _ rfl, rfl, fun ha => absurd ha hact, fun _ => rfl⟩
    simpa using lookup_filterNe_self name (s.themes.getD [])

/-- C6 witness: the amended theorem applied to `themeDeletionState`
extended with an image assigned to `ThemeX`. -/
theorem delete_theme_amended_witness :
    ("ThemeX" : String) ≠ "All Images" ∧ ("ThemeX" : String) ≠ "Extras" ∧
    (((themeDeletionState.themes.getD []).lookup "ThemeX").isSome) ∧
    ∃ s2, deleteTheme "ThemeX" themeDeletionState = .ok s2 ∧
      ((s2.themes.getD []).lookup "ThemeX") = none ∧
      s2.image_themes =
        some ((themeDeletionState.image_themes.getD []).map
          (fun p => (p.1, p.2.erase "ThemeX"))) ∧
      (∀ img l, ((themeDeletionState.image_themes.getD []).lookup img) = some l →
        l.Nodup → "ThemeX" ∉ (((s2.image_themes.getD []).lookup img).getD [])) ∧
      s2.video_themes = themeDeletionState.video_themes ∧
      (themeDeletionState.activeTheme = some "ThemeX" →
        s2.active_theme = some (some "All Images")) ∧
      (themeDeletionState.activeTheme ≠ some "ThemeX" →
        s2.active_theme = themeDeletionState.active_theme) :=
  ⟨by decide, by decide, by decide,
    delete_theme_amended themeDeletionState "ThemeX" (by decide) (by decide) (by decide)⟩

/-- C10 witness: the theorem applied to a state whose active theme is
`Art`, with a fresh image name and a fresh video id. -/
theorem ingest_assigns_active_theme_witness :
    ((({ active_theme := some (some "Art") } : Settings).image_themes.getD
        []).lookup "f.jpg" = none) ∧
    (((uploadImageSettings "f.jpg"
        { active_theme := some (some "Art") }).image_themes.getD
          []).lookup "f.jpg" = some ["Art"]) ∧
    (("http://v.example/x.mp4" : String) ≠ "") ∧
    (addVideo "http://v.example/x.mp4" "vid-9" { active_theme := some (some "Art") } =
      some (addVideoSettings "http://v.example/x.mp4" "vid-9"
        { active_theme := some (some "Art") })) := by
  have h := ingest_assigns_active_theme
    ({ active_theme := some (some "Art") } : Settings)
    "f.jpg" "vid-9" "http://v.example/x.mp4"
  exact ⟨by decide, (h.1 (by decide)).1 "Art" (by decide) (by decide),
    by decide, (h.2 (by decide) (by decide)).1⟩

/-! ## Claim C4: mirror consistency of day slots -/

theorem lookup_setSlot_self (k : String) (A : List String)
    (m : List (String × DaySlot)) :
    (setSlotAtmospheres k A m).lookup k =
      (m.lookup k).map (fun d => ⟨d.start_hour, some A⟩) := by
  unfold setSlotAtmospheres
  exact lookup_setIf_self k (fun d => ⟨d.start_hour, some A⟩) m

theorem lookup_setSlot_ne (k j : String) (A : List String)
    (m : List (String × DaySlot)) (h : j ≠ k) :
    (setSlotAtmospheres k A m).lookup j = m.lookup j := by
  unfold setSlotAtmospheres
  exact lookup_setIf_ne k j (fun d => ⟨d.start_hour, some A⟩) m h

theorem slotAtm_double_set (dt : List (String × DaySlot)) (k m : String)
    (A : List String) (hne : m ≠ k) {sk : DaySlot}
    (hvk : dt.lookup k = some sk) :
    slotAtmospheres (setSlotAtmospheres m A (setSlotAtmospheres k A dt)) k = A := by
  unfold slotAtmospheres
  rw [lookup_setSlot_ne m k A _ (fun h => hne h.symm), lookup_setSlot_self k A dt, hvk]
  rfl

theorem slotAtm_outer_set (dt : List (String × DaySlot)) (k m : String)
    (A : List String) (hne : m ≠ k) {sm : DaySlot}
    (hvm : dt.lookup m = some sm) :
    slotAtmospheres (setSlotAtmospheres m A (setSlotAtmospheres k A dt)) m = A := by
  unfold slotAtmospheres
  rw [lookup_setSlot_self m A _, lookup_setSlot_ne k m A dt hne, hvm]
  rfl

/-- Core of the mirror-consistency argument for a source slot `k`
(1-6) with mirror slot `m`: the update writes both slots and
both `k` and its peer read back the written list (through the
"All Images" fallback when it is empty). -/
theorem mirror_update_from_source (s : Settings) (k m : String)
    (A : List String) (fresh : Nat)
    (hmem : k ∈ validTimeIds)
    (hmt : mirrorTargets k = [m])
    (hmk : m ≠ k)
    (hrk : mirrorReadSource k = k)
    (hrm : mirrorReadSource m = k)
    (hpk : mirrorPeer k = m)
    (hksome : ((s.day_times.getD []).lookup k).isSome)
    (hmsome : ((s.day_times.getD []).lookup m).isSome) :
    ∃ s2, updateTimeAtmospheres k A s fresh = some s2 ∧
      getActiveAtmospheresForTime (mirrorPeer k) s2 =
        (if A = [] then ["All Images"] else A) ∧
      getActiveAtmospheresForTime k s2 =
        (if A = [] then ["All Images"] else A) := by
  obtain ⟨sk, hvk⟩ := Option.isSome_iff_exists.mp hksome
  obtain ⟨sm, hvm⟩ := Option.isSome_iff_exists.mp hmsome
  have hmain : updateTimeAtmospheres k A s fresh =
      some { s with
             day_times := some (setSlotAtmospheres m A
               (setSlotAtmospheres k A (s.day_times.getD []))),
             shuffle_id := some fresh } := by
    unfold updateTimeAtmospheres
    rw [if_neg (by simp [hmem])]
    dsimp only
    rw [if_neg (by simp [hvk])]
    rw [hmt]
    rw [if_pos (by simp)]
    rw [List.foldl_cons, List.foldl_nil]
    rw [if_pos (by rw [lookup_setSlot_ne k m A _ hmk]; simp [hvm])]
  refine ⟨_, hmain, ?_, ?_⟩
  · rw [hpk]
    unfold getActiveAtmospheresForTime
    dsimp only
    rw [hrm]
    simp only [Option.getD_some]
    rw [slotAtm_double_set _ k m A hmk hvk]
  · unfold getActiveAtmospheresForTime
    dsimp only
    rw [hrk]
    simp only [Option.getD_some]
    rw [slotAtm_double_set _ k m A hmk hvk]

/-- Core of the mirror-consistency argument for a mirror slot `k`
(7-12) with source slot `src`: the update writes `k` and its source, and
both `k` and its peer resolve their reads through the source. -/
theorem mirror_update_from_mirror (s : Settings) (k src : String)
    (A : List String) (fresh : Nat)
    (hmem : k ∈ validTimeIds)
    (hmt : mirrorTargets k = [])
    (hsrc : sourceOf k = some src)
    (hmtsrc : mirrorTargets src = [k])
    (hsk : src ≠ k)
    (hrk : mirrorReadSource k = src)
    (hrsrc : mirrorReadSource src = src)
    (hpk : mirrorPeer k = src)
    (hksome : ((s.day_times.getD []).lookup k).isSome)
    (hssome : ((s.day_times.getD []).lookup src).isSome) :
    ∃ s2, updateTimeAtmospheres k A s fresh = some s2 ∧
      getActiveAtmospheresForTime (mirrorPeer k) s2 =
        (if A = [] then ["All Images"] else A) ∧
      getActiveAtmospheresForTime k s2 =
        (if A = [] then ["All Images"] else A) := by
  obtain ⟨sk, hvk⟩ := Option.isSome_iff_exists.mp hksome
  obtain ⟨ss, hvs⟩ := Option.isSome_iff_exists.mp hssome
  have hmain : updateTimeAtmospheres k A s fresh =
      some { s with
             day_times := some (setSlotAtmospheres src A
               (setSlotAtmospheres k A (s.day_times.getD []))),
             shuffle_id := some fresh } := by
    unfold updateTimeAtmospheres
    rw [if_neg (by simp [hmem])]
    dsimp only
    rw [if_neg (by simp [hvk])]
    rw [hmt]
    rw [if_neg (by simp)]
    rw [hsrc]
    dsimp only
    rw [if_pos (by rw [lookup_setSlot_ne k src A _ hsk]; simp [hvs])]
    rw [hmtsrc]
    rw [List.foldl_cons, List.foldl_nil]
    rw [if_neg (by simp)]
  refine ⟨_, hmain, ?_, ?_⟩
  · rw [hpk]
    unfold getActiveAtmospheresForTime
    dsimp only
    rw [hrsrc]
    simp only [Option.getD_some]
    rw [slotAtm_outer_set _ k src A hsk hvs]
  · unfold getActiveAtmospheresForTime
    dsimp only
    rw [hrk]
    simp only [Option.getD_some]
    rw [slotAtm_outer_set _ k src A hsk hvs]

/-- C4.  For every settings state whose `day_times` table contains all
twelve slots, every slot id `k` and every atmosphere list `A`, the
time-period update with `A` succeeds and afterwards both slot `k` and its
mirror peer (the slot 12 hours away) resolve their atmospheres to `A`,
with the empty list resolving to the `["All Images"]` fallback on read
for both. -/
theorem update_time_atmospheres_mirror :
    ∀ (s : Settings) (k : String) (A : List String) (fresh : Nat),
      k ∈ validTimeIds →
      (∀ id ∈ validTimeIds, ((s.day_times.getD []).lookup id).isSome) →
      ∃ s2, updateTimeAtmospheres k A s fresh = some s2 ∧
        getActiveAtmospheresForTime (mirrorPeer k) s2 =
          (if A = [] then ["All Images"] else A) ∧
        getActiveAtmospheresForTime k s2 =
          (if A = [] then ["All Images"] else A) := by
  intro s k A fresh hkmem hall
  have hsome : ∀ id ∈ validTimeIds, ((s.day_times.getD []).lookup id).isSome := hall
  simp only [validTimeIds, List.mem_cons, List.not_mem_nil, or_false] at hkmem
  rcases hkmem with rfl | rfl | rfl | rfl | rfl | rfl | rfl | rfl | rfl | rfl | rfl | rfl
  · exact mirror_update_from_source s "1" "7" A fresh (by decide) rfl (by decide)
      rfl rfl rfl (hsome "1" (by decide)) (hsome "7" (by decide))
  · exact mirror_update_from_source s "2" "8" A fresh (by decide) rfl (by decide)
      rfl rfl rfl (hsome "2" (by decide)) (hsome "8" (by decide))
  · exact mirror_update_from_source s "3" "9" A fresh (by decide) rfl (by decide)
      rfl rfl rfl (hsome "3" (by decide)) (hsome "9" (by decide))
  · exact mirror_update_from_source s "4" "10" A fresh (by decide) rfl (by decide)
      rfl rfl rfl (hsome "4" (by decide)) (hsome "10" (by decide))
  · exact mirror_update_from_source s "5" "11" A fresh (by decide) rfl (by decide)
      rfl rfl rfl (hsome "5" (by decide)) (hsome "11" (by decide))
  · exact mirror_update_from_source s "6" "12" A fresh (by decide) rfl (by decide)
      rfl rfl rfl (hsome "6" (by decide)) (hsome "12" (by decide))
  · exact mirror_update_from_mirror s "7" "1" A fresh (by decide) rfl rfl rfl
      (by decide) rfl rfl rfl (hsome "7" (by decide)) (hsome "1" (by decide))
  · exact mirror_update_from_mirror s "8" "2" A fresh (by decide) rfl rfl rfl
      (by decide) rfl rfl rfl (hsome "8" (by decide)) (hsome "2" (by decide))
  · exact mirror_update_from_mirror s "9" "3" A fresh (by decide) rfl rfl rfl
      (by decide) rfl rfl rfl (hsome "9" (by decide)) (hsome "3" (by decide))
  · exact mirror_update_from_mirror s "10" "4" A fresh (by decide) rfl rfl rfl
      (by decide) rfl rfl rfl (hsome "10" (by decide)) (hsome "4" (by decide))
  · exact mirror_update_from_mirror s "11" "5" A fresh (by decide) rfl rfl rfl
      (by decide) rfl rfl rfl (hsome "11" (by decide)) (hsome "5" (by decide))
  · exact mirror_update_from_mirror s "12" "6" A fresh (by decide) rfl rfl rfl
      (by decide) rfl rfl rfl (hsome "12" (by decide)) (hsome "6" (by decide))

/-- C4 witness: the theorem applied to the default settings, slot 3 and
the list `["Night"]` (the peer of slot 3 is slot 9). -/
theorem update_time_atmospheres_mirror_witness :
    ("3" ∈ validTimeIds) ∧
    (∀ id ∈ validTimeIds,
      (((defaultSettings 0).day_times.getD []).lookup id).isSome) ∧
    ∃ s2, updateTimeAtmospheres "3" ["Night"] (defaultSettings 0) 42 = some s2 ∧
      getActiveAtmospheresForTime (mirrorPeer "3") s2 =
        (if (["Night"] : List String) = [] then ["All Images"] else ["Night"]) ∧
      getActiveAtmospheresForTime "3" s2 =
        (if (["Night"] : List String) = [] then ["All Images"] else ["Night"]) :=
  ⟨by decide, by decide,
    update_time_atmospheres_mirror (defaultSettings 0) "3" ["Night"] 42
      (by decide) (by decide)⟩

/-! ## Claim C1: selection precedence and interval resolution -/

theorem foldl_append_eq_flatMap (l : List String) (f : String → List String)
    (acc : List String) :
    l.foldl (fun a x => a ++ f x) acc = acc ++ l.flatMap f := by
  induction l generalizing acc with
  | nil => simp
  | cons x t ih => simp [List.foldl_cons, ih]

theorem getActiveAtmospheresForTime_ne_nil (t : String) (s : Settings) :
    getActiveAtmospheresForTime t s ≠ [] := by
  unfold getActiveAtmospheresForTime
  dsimp only
  split
  · simp
  · assumption

/-- The theme filter computed by `list_images` coincides with the amended
precedence statement's filter. -/
theorem allowedThemes_eq_specFilter (s : Settings) (hour : Nat) :
    allowedThemes s hour true = specFilter s hour := by
  by_cases hday : s.day_scheduling_enabled.getD false
  · simp only [allowedThemes, specFilter, hday, if_true]
    rw [foldl_append_eq_flatMap]
    simp
  · simp only [allowedThemes, specFilter, hday, Bool.false_eq_true, if_false]
    rcases truthyStr s.activeAtmosphere with _ | a
    · rcases truthyStr s.activeTheme with _ | t
      · rfl
      · by_cases ht : t = "All Images" <;> simp [ht]
    · rfl

theorem themeChain_eq (s : Settings) :
    (match truthyStr s.activeTheme with
      | some t => ((s.themes.getD []).lookup t).map
          (fun (info : IntervalInfo) => info.interval.getD 3600)
      | none => none).getD (s.interval.getD 3600)
    = specInterval.specIntervalThemeCase s := by
  unfold specInterval.specIntervalThemeCase
  rcases truthyStr s.activeTheme with _ | t
  · rfl
  · dsimp only
    rcases (s.themes.getD []).lookup t with _ | info <;> rfl

theorem atmThemeChain_eq (s : Settings) :
    ((match truthyStr s.activeAtmosphere with
      | some a => ((s.atmospheres.getD []).lookup a).map
          (fun (info : IntervalInfo) => info.interval.getD 3600)
      | none => none) <|>
     (match truthyStr s.activeTheme with
      | some t => ((s.themes.getD []).lookup t).map
          (fun (info : IntervalInfo) => info.interval.getD 3600)
      | none => none)).getD (s.interval.getD 3600)
    = (match truthyStr s.activeAtmosphere with
       | some a =>
         match (s.atmospheres.getD []).lookup a with
         | some info => info.interval.getD 3600
         | none => specInterval.specIntervalThemeCase s
       | none => specInterval.specIntervalThemeCase s) := by
  rcases truthyStr s.activeAtmosphere with _ | a
  · dsimp only
    rw [Option.none_orElse]
    exact themeChain_eq s
  · dsimp only
    rcases (s.atmospheres.getD []).lookup a with _ | info
    · rw [Option.map_none', Option.none_orElse]
      exact themeChain_eq s
    · rfl

/-- The interval computed by `get_current_interval` coincides with the
amended precedence statement's interval chain. -/
theorem getCurrentInterval_eq_specInterval (s : Settings) (hour : Nat) :
    getCurrentInterval s hour = specInterval s hour := by
  rcases hta : getActiveAtmospheresForTime (getCurrentTimePeriod hour) s with _ | ⟨f, rest⟩
  · exact absurd hta (getActiveAtmospheresForTime_ne_nil _ s)
  · by_cases hday : s.day_scheduling_enabled.getD false
    · rcases hlf : (s.atmospheres.getD []).lookup f with _ | info
      · have hcase : ¬ (s.day_scheduling_enabled.getD false = true ∧
            (((s.atmospheres.getD []).lookup
              ((getActiveAtmospheresForTime (getCurrentTimePeriod hour) s).headD "")).isSome)) := by
          rw [hta]
          simp [hlf]
        unfold getCurrentInterval specInterval
        dsimp only
        rw [if_neg hcase, hta]
        simp only [hday, if_true, hlf, Option.map_none']
        rw [Option.none_orElse]
        exact atmThemeChain_eq s
      · have hcase : s.day_scheduling_enabled.getD false = true ∧
            (((s.atmospheres.getD []).lookup
              ((getActiveAtmospheresForTime (getCurrentTimePeriod hour) s).headD "")).isSome) := by
          rw [hta]
          simp [hday, hlf]
        unfold getCurrentInterval specInterval
        dsimp only
        rw [if_pos hcase, hta]
        simp [hday, hlf]
    · have hcase : ¬ (s.day_scheduling_enabled.getD false = true ∧
          (((s.atmospheres.getD []).lookup
            ((getActiveAtmospheresForTime (getCurrentTimePeriod hour) s).headD "")).isSome)) := by
        simp [hday]
      unfold getCurrentInterval specInterval
      dsimp only
      rw [if_neg hcase]
      simp only [hday, Bool.false_eq_true, if_false]
      rw [Option.none_orElse]
      exact atmThemeChain_eq s

/-- C1 amended.  For every configuration state, directory listing and
hour, the eligible set of `GET /api/images?enabled_only=true` is the one
dictated by the amended precedence (day schedule with empty-union
fallback, then any set active atmosphere — unfiltered when it is
"All Images" or its theme list is empty — then a non-"All Images" active
theme, then unfiltered), the interval is the one dictated by the amended
chain (day atmosphere when present in the map, else active atmosphere
when present, else active theme when present, else the stored default),
and every returned item has `enabled = true`. -/
theorem list_images_precedence_amended :
    ∀ (s : Settings) (disk : List String) (hour : Nat),
      listEligible s disk hour true = buildItems s disk (specFilter s hour) true ∧
      getCurrentInterval s hour = specInterval s hour ∧
      (∀ it ∈ listEligible s disk hour true, it.enabled = true) := by
  intro s disk hour
  refine ⟨by rw [listEligible, allowedThemes_eq_specFilter],
    getCurrentInterval_eq_specInterval s hour, ?_⟩
  intro it hit
  unfold listEligible buildItems at hit
  rcases List.mem_append.mp hit with hc | hc
  · obtain ⟨name, _, hf⟩ := List.mem_filterMap.mp hc
    by_cases he : ((s.enabled_images.getD []).lookup name).getD true = true
    · simp only [he, not_true, and_false, if_false] at hf
      rcases hA : allowedThemes s hour true with _ | ts <;> rw [hA] at hf
      · obtain rfl := Option.some.inj hf
        rfl
      · dsimp only at hf
        by_cases hAny : (((s.image_themes.getD []).lookup name).getD []).any
            (fun t => ts.contains t) = true
        · rw [if_pos hAny] at hf
          obtain rfl := Option.some.inj hf
          rfl
        · rw [if_neg hAny] at hf
          exact absurd hf (by simp)
    · have he2 : ((s.enabled_images.getD []).lookup name).getD true = false := by
        simpa using he
      simp [he2] at hf
  · obtain ⟨v, _, hf⟩ := List.mem_filterMap.mp hc
    by_cases he : ((s.enabled_videos.getD []).lookup v.id).getD true = true
    · simp only [he, not_true, and_false, if_false] at hf
      rcases hA : allowedThemes s hour true with _ | ts <;> rw [hA] at hf
      · obtain rfl := Option.some.inj hf
        rfl
      · dsimp only at hf
        by_cases hAny : (((s.video_themes.getD []).lookup v.id).getD []).any
            (fun t => ts.contains t) = true
        · rw [if_pos hAny] at hf
          obtain rfl := Option.some.inj hf
          rfl
        · rw [if_neg hAny] at hf
          exact absurd hf (by simp)
    · have he2 : ((s.enabled_videos.getD []).lookup v.id).getD true = false := by
        simpa using he
      simp [he2] at hf

/-- Configuration state for the C1 counterexample: day scheduling off,
active atmosphere "All Images" (as the toggle-off path leaves it), active
theme `T1` with interval 100, stored default interval 600, and one image
assigned to `T1`. -/
def allImagesAtmosphereState : Settings :=
  { interval := some 600,
    themes := some [("All Images", ⟨some 3600⟩), ("T1", ⟨some 100⟩)],
    atmospheres := some [("All Images", ⟨some 3600⟩)],
    atmosphere_themes := some [("All Images", [])],
    active_atmosphere := some (some "All Images"),
    active_theme := some (some "T1"),
    image_themes := some [("y.jpg", ["T1"])],
    day_scheduling_enabled := some false }

/-- C1 counterexample.  With the active atmosphere "All Images" and
active theme `T1`, the claim's precedence skips the unfiltered atmosphere
and resolves the theme case — eligible set `{y.jpg}`, interval 100 — but
the code treats the set "All Images" atmosphere as an unfiltered match:
it returns every enabled item and the atmosphere interval 3600. -/
theorem precedence_all_images_atmosphere_shadows_theme :
    listEligible allImagesAtmosphereState ["x.jpg", "y.jpg"] 12 true ≠
      buildItems allImagesAtmosphereState ["x.jpg", "y.jpg"]
        (claimFilter allImagesAtmosphereState 12) true ∧
    getCurrentInterval allImagesAtmosphereState 12 ≠
      claimInterval allImagesAtmosphereState 12 := by
  exact ⟨by decide, by decide⟩

/-- C8 witness: the amended vocabulary theorem instantiated at a `next`
command sent to an empty mailbox. -/
theorem send_command_vocabulary_amended_witness :
    ((sendCommand ⟨some "next", none⟩ ⟨none, 0⟩ 0).2.status = 200 ∨
      (sendCommand ⟨some "next", none⟩ ⟨none, 0⟩ 0).2.status = 400) ∧
    ((sendCommand ⟨some "next", none⟩ ⟨none, 0⟩ 0).2.status = 200 ↔
      ((⟨some "next", none⟩ : SendData).command = some "next" ∨
       (⟨some "next", none⟩ : SendData).command = some "prev" ∨
       (⟨some "next", none⟩ : SendData).command = some "pause" ∨
       (⟨some "next", none⟩ : SendData).command = some "play" ∨
       (⟨some "next", none⟩ : SendData).command = some "reload" ∨
       ((⟨some "next", none⟩ : SendData).command = some "jump" ∧
         truthyStr (⟨some "next", none⟩ : SendData).image_name ≠ none))) ∧
    ((sendCommand ⟨some "next", none⟩ ⟨none, 0⟩ 0).2.status = 200 →
      (sendCommand ⟨some "next", none⟩ ⟨none, 0⟩ 0).2.command =
        (⟨some "next", none⟩ : SendData).command) ∧
    ((sendCommand ⟨some "next", none⟩ ⟨none, 0⟩ 0).2.status = 400 →
      (sendCommand ⟨some "next", none⟩ ⟨none, 0⟩ 0).1 = ⟨none, 0⟩) :=
  send_command_vocabulary_amended ⟨some "next", none⟩ ⟨none, 0⟩ 0

/-- C1 witness: the amended precedence theorem instantiated at the
"All Images"-atmosphere state, with the enabled-filter conjunct applied to
a concrete member of the eligible list. -/
theorem list_images_precedence_amended_witness :
    listEligible allImagesAtmosphereState ["x.jpg", "y.jpg"] 12 true =
      buildItems allImagesAtmosphereState ["x.jpg", "y.jpg"]
        (specFilter allImagesAtmosphereState 12) true ∧
    getCurrentInterval allImagesAtmosphereState 12 =
      specInterval allImagesAtmosphereState 12 ∧
    (⟨"x.jpg", true, [], "image"⟩ : MediaItem) ∈
      listEligible allImagesAtmosphereState ["x.jpg", "y.jpg"] 12 true ∧
    (⟨"x.jpg", true, [], "image"⟩ : MediaItem).enabled = true :=
  have h := list_images_precedence_amended allImagesAtmosphereState
    ["x.jpg", "y.jpg"] 12
  ⟨h.1, h.2.1, by decide, h.2.2 _ (by decide)⟩
